import Mathlib

/-!
Verification of the Catnip connector library's paginated-fetch, retry, rate-limit
and batched-write logic.  Each connector's relevant control flow is shallowly
embedded as an executable Lean function; the environment (HTTP servers, clocks)
is abstracted as explicit function parameters, and effects (sleeps, prints) are
recorded as explicit traces.
-/

namespace Paging

/-- Python `range(start, stop, step)` for a non-negative step: the arithmetic
progression starting at `start` with the given step, of length
`⌈(stop - start) / step⌉` (which is `0` when `stop ≤ start`, matching Python).
Used to embed every `range(...)` expression of the Python sources. -/
def pyRange (start stop step : Nat) : List Nat :=
  List.range' start ((stop - start + step - 1) / step) step

/-- The list comprehension
`[min(start + batch_size, num_pages+1) for start in range(2, num_pages+1, batch_size)]`
shared verbatim by `FLA_Formstack._request_loop` and `FLA_Fortress._request_loop`. -/
def requestBatchesBase (numPages batchSize : Nat) : List Nat :=
  (pyRange 2 (numPages + 1) batchSize).map (fun x => min (x + batchSize) (numPages + 1))

/-- The subsequent line `batches = [2] + batches if num_pages > 1 else batches`. -/
def requestBatches (numPages batchSize : Nat) : List Nat :=
  if numPages > 1 then 2 :: requestBatchesBase numPages batchSize
  else requestBatchesBase numPages batchSize

/-- The Python loop `for i in range(1, len(batches))` works on the consecutive
pairs `(batches[i-1], batches[i])`; as a list these are `batches.zip batches.tail`. -/
def batchWindows (bs : List Nat) : List (Nat × Nat) := bs.zip bs.tail

/-- All continuation pages requested by `FLA_Formstack._request_loop`: each
window `(start_page, end_page)` is fanned out via `_async_gather_pages`, which
requests `range(start_page, end_page)`. -/
def formstackContinuationPages (numPages batchSize : Nat) : List Nat :=
  (batchWindows (requestBatches numPages batchSize)).flatMap (fun w => pyRange w.1 w.2 1)

/-- All continuation pages requested by `FLA_Fortress._request_loop`: identical
to the Formstack loop except for the `if i > 5: break` after processing batch
`i`, which stops the loop after the sixth window. -/
def fortressContinuationPages (numPages batchSize : Nat) : List Nat :=
  ((batchWindows (requestBatches numPages batchSize)).take 6).flatMap (fun w => pyRange w.1 w.2 1)

end Paging

namespace Blinkfire

/-- Value `FLA_Blinkfire._rate_limits["rate_limit"]`: 15 requests. -/
def rateLimit : Nat := 15

/-- Value `FLA_Blinkfire._rate_limits["time_window"]`: 900 seconds. -/
def timeWindow : Int := 900

/-- Embeds `FLA_Blinkfire._enforce_rate_limit` for a call entering at time
`now` with recorded `stamps`: stale timestamps (`ts ≤ now - 900`) are dropped;
if at least 15 remain the caller sleeps until `stamps[0] + 900`, the moment the
oldest in-window timestamp expires; the time recorded into the list is the
pre-sleep `current_time` (`now`), exactly as in the source.  Returns the new
timestamp list and the time at which the request is actually issued (the time
after any suspension). -/
def enforceRateLimit (stamps : List Int) (now : Int) : List Int × Int :=
  let kept := stamps.filter (fun ts => decide (now - timeWindow < ts))
  let issueTime := if rateLimit ≤ kept.length then kept.headD 0 + timeWindow else now
  (kept ++ [now], issueTime)

/-- A sequential driver issuing `n` back-to-back calls through the limiter:
call 1 enters at time 0 and each later call enters the moment the previous
request was issued.  Returns the final recorded-timestamp list and the list of
actual issue times. -/
def runCalls : Nat → List Int × List Int
  | 0 => ([], [])
  | n + 1 =>
    let prev := runCalls n
    let now := prev.2.getLastD 0
    let next := enforceRateLimit prev.1 now
    (next.1, prev.2 ++ [next.2])

/-- One result dictionary as consumed by `FLA_Blinkfire._get_cursor_results`:
only the presence and value of its `next_page` key matter to the loop. -/
structure CursorResult where
  next_page : Option String

/-- The cursors actually sent by the `while 'next_page' in result_keys` loop of
`FLA_Blinkfire._get_cursor_results`, for one entry `result` of `results` whose
`next_page` is `orig`.  Inside the loop the source reads
`cursor = result['next_page']` from the unchanged loop variable `result`, so
every request carries `orig`; only `result_keys` is refreshed from the new
response, which drives the continuation test.  `fuel` bounds the otherwise
unbounded loop. -/
def getCursorResultsCursors (server : String → CursorResult) (orig : String) :
    Nat → Bool → List String
  | _, false => []
  | 0, true => []
  | fuel + 1, true =>
    orig :: getCursorResultsCursors server orig fuel (server orig).next_page.isSome

/-- Entry point: the loop runs only if the first result has a `next_page` key,
and the first cursor sent is that key's value. -/
def getCursorResults (server : String → CursorResult) (first : CursorResult) (fuel : Nat) :
    List String :=
  match first.next_page with
  | some c => getCursorResultsCursors server c fuel true
  | none => []

end Blinkfire

/-- Outcome of a bounded-retry page fetch: either the payload of the attempt
that succeeded, or the `raise Exception("Max retries exceeded")` /
`raise last_exception` hard failure. -/
inductive FetchOutcome where
  | payload (attempt : Nat)
  | maxRetriesExceeded
deriving DecidableEq

namespace Fortress

/-- Embeds `FLA_Fortress._get_async_request` (`max_retries = 5`): the server is
a map from attempt index (0-based) to HTTP status; `raise_for_status` raises
for any status ≥ 400, after which the code does `retries += 1` and sleeps
`2 ** retries` seconds.  Returns the list of sleeps and the outcome. -/
def getAsyncRequestAux (server : Nat → Nat) :
    Nat → Nat → List Nat → List Nat × FetchOutcome
  | 0, _, sleeps => (sleeps, FetchOutcome.maxRetriesExceeded)
  | remaining + 1, attempt, sleeps =>
    if 400 ≤ server attempt then
      getAsyncRequestAux server remaining (attempt + 1) (sleeps ++ [2 ^ (attempt + 1)])
    else (sleeps, FetchOutcome.payload attempt)

def getAsyncRequest (server : Nat → Nat) : List Nat × FetchOutcome :=
  getAsyncRequestAux server 5 0 []

/-- The print statements emitted by the body of `FLA_Fortress._request_loop`
itself: `# Pages: {num_pages}`, per-batch `start_page: {..}` /
`end_page: {..}`, and the final `print(len(responses))`.  The per-request
prints inside `_get_async_request` (the page banner, headers and payload,
interleaved nondeterministically across the concurrent batch) are not part of
this trace; none of them mentions the loop's break either. -/
inductive LoopLog where
  | numPages (n : Nat)
  | startPage (n : Nat)
  | endPage (n : Nat)
  | responseCount (n : Nat)
deriving DecidableEq

structure LoopRun where
  requestedPages : List Nat
  returnedPages : List Nat
  logs : List LoopLog
deriving DecidableEq

/-- The `for i in range(1, len(batches))` loop of `FLA_Fortress._request_loop`:
prints the window bounds, gathers pages `range(start_page, end_page)`, and
stops after the iteration with `i > 5` (`if i > 5: break`). -/
def requestLoopGo : List (Nat × Nat) → Nat → List Nat → List LoopLog →
    List Nat × List LoopLog
  | [], _, pages, logs => (pages, logs)
  | w :: rest, i, pages, logs =>
    let pages2 := pages ++ Paging.pyRange w.1 w.2 1
    let logs2 := logs ++ [LoopLog.startPage w.1, LoopLog.endPage w.2]
    if 5 < i then (pages2, logs2)
    else requestLoopGo rest (i + 1) pages2 logs2

/-- Function `FLA_Fortress._request_loop` given the declared page count of the initial
response: the initial request is page 1; the loop requests the batched pages;
every accumulated response (and only those) ends up in the returned dataframe. -/
def requestLoop (numPages batchSize : Nat) : LoopRun :=
  let go := requestLoopGo (Paging.batchWindows (Paging.requestBatches numPages batchSize)) 1
    [] [LoopLog.numPages numPages]
  { requestedPages := 1 :: go.1
    returnedPages := 1 :: go.1
    logs := go.2 ++ [LoopLog.responseCount (1 + go.1.length)] }

end Fortress

namespace Bump

/-- Embeds `FLA_Bump._get_async_request` (`max_retries = 3`, `delay = 60`):
on any failing attempt (status ≥ 400 makes `raise_for_status` throw) the code
sleeps the constant 60-second delay and retries; after the third failed
attempt it re-raises the last exception. -/
def getAsyncRequestAux (server : Nat → Nat) :
    Nat → Nat → List Nat → List Nat × FetchOutcome
  | 0, _, sleeps => (sleeps, FetchOutcome.maxRetriesExceeded)
  | remaining + 1, attempt, sleeps =>
    if 400 ≤ server attempt then
      getAsyncRequestAux server remaining (attempt + 1) (sleeps ++ [60])
    else (sleeps, FetchOutcome.payload attempt)

def getAsyncRequest (server : Nat → Nat) : List Nat × FetchOutcome :=
  getAsyncRequestAux server 3 0 []

/-- Probe `FLA_Bump._get_total_pages` sends a request with `params["page"] = 1`
before the chunked fetch runs. -/
def totalPagesProbePage : Nat := 1

/-- Embeds `FLA_Bump._get_responses_with_chunking`: for
`total_pages > chunk_size`, the loop `for i in range(0, total_pages, chunk_size)`
requests pages `range(1+i, temp_chunk_size+1)` and then advances
`temp_chunk_size` by `chunk_size`, clamping it to `total_pages`; otherwise it
requests `range(1, total_pages+1)` in one gather. -/
def chunkPages (totalPages chunkSize : Nat) : List Nat :=
  if totalPages > chunkSize then
    ((Paging.pyRange 0 totalPages chunkSize).foldl
      (fun acc i =>
        let pages := acc.1 ++ Paging.pyRange (1 + i) (acc.2 + 1) 1
        let temp := acc.2 + chunkSize
        (pages, if totalPages ≤ temp then totalPages else temp))
      (([] : List Nat), chunkSize)).1
  else Paging.pyRange 1 (totalPages + 1) 1

/-- All page numbers requested during one count-based fetch session
(e.g. `FLA_Bump.get_sales`): the `_get_total_pages` probe followed by the
chunked fetch. -/
def sessionPages (totalPages chunkSize : Nat) : List Nat :=
  totalPagesProbePage :: chunkPages totalPages chunkSize

end Bump

namespace Cheq

/-- One response as consumed by `FLA_Cheq.get_menus`: HTTP status and the
`end` flag of the JSON body. -/
structure MenusResp where
  status : Nat
  isEnd : Bool

structure MenusRun where
  requests : Nat
  done : Bool

/-- Embeds the `while not end` loop of `FLA_Cheq.get_menus`: a 503 response
only sleeps 2 seconds and retries (no counter, no bound); otherwise `end` is
read from the body and the page advances.  `fuel` bounds the iteration count
of the model; `done` records whether the loop has reached its exit condition
within that many iterations.  `requests` counts HTTP requests issued. -/
def getMenusLoop (server : Nat → MenusResp) : Nat → Nat → Bool → MenusRun
  | 0, k, ended => ⟨k, ended⟩
  | fuel + 1, k, ended =>
    if ended then ⟨k, ended⟩
    else if (server k).status = 503 then getMenusLoop server fuel (k + 1) ended
    else getMenusLoop server fuel (k + 1) (server k).isEnd

def getMenus (server : Nat → MenusResp) (fuel : Nat) : MenusRun :=
  getMenusLoop server fuel 0 false

/-- The `get_menus` loop terminates against `server` iff some finite number of
iterations reaches the `while not end` exit condition. -/
def getMenusTerminates (server : Nat → MenusResp) : Prop :=
  ∃ fuel, (getMenus server fuel).done = true

/-- A server that answers 503 to every request. -/
def menus503 : Nat → MenusResp := fun _ => ⟨503, false⟩

/-- One response as consumed by `FLA_Cheq.get_sales`: HTTP status, the
`results` record list, and the `end` flag. -/
structure SalesResp where
  status : Nat
  results : List Nat
  isEnd : Bool

structure SalesRun where
  requests : Nat
  loadedPages : List Nat

/-- Embeds the `while not end` loop of `FLA_Cheq.get_sales`: request `k` is
the k-th HTTP request (0-based); a 503 bumps `continue_counter` and breaks
once it exceeds 5; a non-503 response with empty `results` breaks immediately;
otherwise `end` is read, the page advances and the response is kept. -/
def getSalesLoop (server : Nat → SalesResp) :
    Nat → Nat → Nat → Nat → Bool → List Nat → SalesRun
  | 0, k, _, _, _, acc => ⟨k, acc⟩
  | fuel + 1, k, page, cc, ended, acc =>
    if ended then ⟨k, acc⟩
    else if (server k).status = 503 then
      if 5 < cc + 1 then ⟨k + 1, acc⟩
      else getSalesLoop server fuel (k + 1) page (cc + 1) ended acc
    else if (server k).results = [] then ⟨k + 1, acc⟩
    else getSalesLoop server fuel (k + 1) (page + 1) cc (server k).isEnd (acc ++ [page])

def getSales (server : Nat → SalesResp) (fuel : Nat) : SalesRun :=
  getSalesLoop server fuel 0 1 0 false []

end Cheq

namespace SeatGeek

/-- One response as consumed by `FLA_SeatGeek._request_loop`: the `data`
record list, the `has_more` flag and the `cursor` for the next call. -/
structure PageResp where
  data : List Nat
  hasMore : Bool
  cursor : String

structure Run where
  requests : Nat
  records : List Nat
  returnedNone : Bool
deriving DecidableEq

/-- The `while _has_more` loop of `FLA_SeatGeek._request_loop`: request `k`
appends its `data` to the accumulator and refreshes `_has_more`; after each
iteration the elapsed wall-clock time is compared against the 5-minute
(300-second) ceiling and the loop breaks when it is exceeded.
`elapsedAfter k` gives the elapsed seconds at the check following request `k`. -/
def requestLoopGo (server : Nat → PageResp) (elapsedAfter : Nat → Nat) :
    Nat → Nat → Bool → List Nat → Nat × List Nat
  | 0, k, _, acc => (k, acc)
  | fuel + 1, k, hasMore, acc =>
    if hasMore then
      let r := server k
      if 300 < elapsedAfter k then (k + 1, acc ++ r.data)
      else requestLoopGo server elapsedAfter fuel (k + 1) r.hasMore (acc ++ r.data)
    else (k, acc)

/-- Function `FLA_SeatGeek._request_loop`: the initial request is request 0; if its
`data` is empty the function prints and returns `None` without any further
request; otherwise the continuation loop runs. -/
def requestLoop (server : Nat → PageResp) (elapsedAfter : Nat → Nat) (fuel : Nat) : Run :=
  let r0 := server 0
  if r0.data = [] then ⟨1, [], true⟩
  else
    let go := requestLoopGo server elapsedAfter fuel 1 r0.hasMore r0.data
    ⟨go.1, go.2, false⟩

end SeatGeek

namespace Gameday

structure Resp where
  status : Nat
  body : String

/-- One element of the `responses` list returned by
`FLA_Gameday.post_members`: built only in the `try` branch, after
`raise_for_status` succeeded. -/
structure Outcome where
  iteration : Nat
  statusCode : Nat
  response : String
deriving DecidableEq

/-- The `FAILED ITERATION` diagnostics printed (not returned) by the `except`
branch of `FLA_Gameday.post_members`, including the response status code and
body. -/
inductive FailLog where
  | failedIteration (iteration status : Nat) (body : String)
deriving DecidableEq

structure Run where
  attempted : List Nat
  outcomes : List Outcome
  logs : List FailLog
deriving DecidableEq

/-- One iteration of the batch loop of `FLA_Gameday.post_members` for batch
`i`: `raise_for_status` throws for status ≥ 400, in which case the failure is
only printed and the loop continues with the next batch; a success is appended
to the returned `responses` list. -/
def postMembersStep (server : Nat → Resp) (run : Run) (i : Nat) : Run :=
  if (server i).status < 400 then
    { run with
        attempted := run.attempted ++ [i]
        outcomes := run.outcomes ++ [⟨i, (server i).status, (server i).body⟩] }
  else
    { run with
        attempted := run.attempted ++ [i]
        logs := run.logs ++ [FailLog.failedIteration i (server i).status (server i).body] }

/-- The batch loop of `FLA_Gameday.post_members` over `nBatches` batches
(batch `i` is the dataframe slice starting at `i * batch_size`). -/
def postMembers (server : Nat → Resp) (nBatches : Nat) : Run :=
  (List.range nBatches).foldl (postMembersStep server) ⟨[], [], []⟩

end Gameday

namespace Greenhouse

/-- One page as seen by `FLA_Greenhouse._get_all_pages`: `chunks` is what
iterating the raw `requests.Response` object yields (body byte chunks),
`records` is what `response.json()` would have parsed, and `nextLink` is the
`rel="next"` target of the `Link` header. -/
structure Page (α β : Type) where
  chunks : List α
  records : List β
  nextLink : Option String

/-- Embeds `FLA_Greenhouse._get_all_pages`: the accumulator is extended with
the iterated raw response (`all_data.extend(response)`) — never with
`response.json()` — and the loop follows the `Link: rel="next"` chain.
`fuel` bounds the loop. -/
def getAllPagesAux {α β : Type} (server : String → Page α β) : Nat → String → List α
  | 0, _ => []
  | fuel + 1, url =>
    (server url).chunks ++
      (match (server url).nextLink with
       | some nxt => getAllPagesAux server fuel nxt
       | none => [])

/-- The URLs visited by the `_get_all_pages` loop, in order. -/
def visitedPages {α β : Type} (server : String → Page α β) : Nat → String → List String
  | 0, _ => []
  | fuel + 1, url =>
    url :: (match (server url).nextLink with
            | some nxt => visitedPages server fuel nxt
            | none => [])

/-- Method `FLA_Greenhouse.get_all_jobs` delegates to `_get_all_pages("jobs", ...)`;
`get_all_candidates` and `get_all_applications` are identical up to endpoint. -/
def getAllJobs {α β : Type} (server : String → Page α β) (fuel : Nat) : List α :=
  getAllPagesAux server fuel "jobs"

end Greenhouse

/-- Server for the C2 failing input: cursor `A` returns a page whose
`next_page` is `B`; any other cursor returns a page without `next_page`. -/
def c2server : String → Blinkfire.CursorResult := fun c =>
  if c = "A" then ⟨some "B"⟩ else ⟨none⟩

/-- Scenario C server: attempts 0, 1, 2 get status 503, attempt 3 gets 200. -/
def c5server : Nat → Nat := fun i => if i < 3 then 503 else 200

/-- A server whose every response has status 503. -/
def alwaysFiveOhThree : Nat → Nat := fun _ => 503

/-- Scenario E server: batch 1 (the second batch) fails with HTTP 400, the
others succeed. -/
def c8server : Nat → Gameday.Resp := fun i =>
  if i = 1 then ⟨400, "batch 2 rejected"⟩ else ⟨200, "created"⟩

/-- Cheq sales server whose third request (index 2) returns zero records. -/
def c9salesServer : Nat → Cheq.SalesResp := fun k =>
  if k = 2 then ⟨200, [], false⟩ else ⟨200, [7], false⟩

/-- SeatGeek server that paginates endlessly — every page carries one record
and `has_more = true` — the runaway-pagination case the circuit breaker
guards against. -/
def c7sgServer : Nat → SeatGeek.PageResp := fun k =>
  if k = 0 then ⟨[1], true, "c1"⟩
  else if k = 1 then ⟨[2], true, "c2"⟩
  else ⟨[3], true, "c3"⟩

/-- A wall clock on which the 5-minute (300-second) ceiling is already
exceeded at the first post-iteration check. -/
def c7elapsed : Nat → Nat := fun _ => 301

/-- SeatGeek server whose initial response carries zero records. -/
def c9sgEmptyServer : Nat → SeatGeek.PageResp := fun _ => ⟨[], true, "c0"⟩

/-- SeatGeek server whose second response (request index 1) carries zero
records but `has_more = true`. -/
def c9sgServer : Nat → SeatGeek.PageResp := fun k =>
  if k = 0 then ⟨[7], true, "c1"⟩
  else if k = 1 then ⟨[], true, "c2"⟩
  else ⟨[5], false, "c3"⟩

/-- Concrete two-page Greenhouse server: raw body chunks differ from the
parsed records. -/
def c10server : String → Greenhouse.Page String Nat := fun u =>
  if u = "jobs" then ⟨["rawchunk1"], [1], some "jobs2"⟩ else ⟨["rawchunk2"], [2], none⟩

/-- Same pages as `c10server` but with all parsed-record lists emptied: only
`chunks` and `nextLink` agree with `c10server`. -/
def c10server2 : String → Greenhouse.Page String Nat := fun u =>
  if u = "jobs" then ⟨["rawchunk1"], [], some "jobs2"⟩ else ⟨["rawchunk2"], [], none⟩

theorem pyRange_nil {start stop step : Nat} (h : stop ≤ start) :
    Paging.pyRange start stop step = [] := by
  unfold Paging.pyRange
  have hz : stop - start = 0 := Nat.sub_eq_zero_of_le h
  rw [hz]
  match step with
  | 0 => simp
  | s + 1 =>
    have : (0 + (s + 1) - 1) / (s + 1) = 0 := Nat.div_eq_of_lt (by omega)
    rw [this]
    rfl

theorem pyRange_cons {start stop step : Nat} (hs : 0 < step) (h : start < stop) :
    Paging.pyRange start stop step = start :: Paging.pyRange (start + step) stop step := by
  unfold Paging.pyRange
  have key : (stop - start + step - 1) / step = (stop - (start + step) + step - 1) / step + 1 := by
    rcases Nat.lt_or_ge stop (start + step + 1) with hlt | hge
    · have h1 : stop - (start + step) = 0 := by omega
      have h2 : stop - start + step - 1 = (stop - start - 1) + step := by omega
      have h3 : 0 + step - 1 = step - 1 := by omega
      rw [h1, h2, h3, Nat.add_div_right _ hs,
        Nat.div_eq_of_lt (by omega), Nat.div_eq_of_lt (by omega)]
    · have h1 : stop - (start + step) + step - 1 = stop - start - 1 := by omega
      have h2 : stop - start + step - 1 = (stop - start - 1) + step := by omega
      rw [h1, h2, Nat.add_div_right _ hs]
  rw [key, List.range'_succ]

theorem pyRange_step_one (a c : Nat) : Paging.pyRange a c 1 = List.range' a (c - a) := by
  unfold Paging.pyRange
  simp

theorem batchWindows_cons₂ (a c : Nat) (r : List Nat) :
    Paging.batchWindows (a :: c :: r) = (a, c) :: Paging.batchWindows (c :: r) := rfl

theorem batchWindows_single (a : Nat) : Paging.batchWindows [a] = [] := rfl

/-- The consecutive batch windows built from boundaries
`s :: map (min (· + b) stop) (pyRange s stop b)` request exactly the pages
`s, s+1, …, stop-1`, each once, in order. -/
theorem windows_flatMap_cover (b : Nat) (hb : 0 < b) :
    ∀ d s stop, stop - s ≤ d → s < stop →
      (Paging.batchWindows
          (s :: (Paging.pyRange s stop b).map (fun x => min (x + b) stop))).flatMap
          (fun w => Paging.pyRange w.1 w.2 1) =
        List.range' s (stop - s) := by
  intro d
  induction d with
  | zero => intro s stop hd hlt; omega
  | succ d ih =>
    intro s stop hd hlt
    rw [pyRange_cons hb hlt]
    rcases Nat.lt_or_ge (s + b) stop with h2 | h2
    · have hmin : min (s + b) stop = s + b := by omega
      simp only [List.map_cons, hmin]
      rw [batchWindows_cons₂, List.flatMap_cons]
      rw [ih (s + b) stop (by omega) h2]
      rw [pyRange_step_one]
      have hsb : s + b - s = b := by omega
      rw [hsb]
      have := List.range'_append_1 s b (stop - (s + b))
      rw [show s + b = s + b from rfl] at this
      rw [this]
      congr 1
      omega
    · have hmin : min (s + b) stop = stop := by omega
      have hnil : Paging.pyRange (s + b) stop b = [] := pyRange_nil h2
      simp only [hnil, List.map_cons, List.map_nil, hmin]
      rw [batchWindows_cons₂, batchWindows_single]
      rw [List.flatMap_cons, List.flatMap_nil, List.append_nil]
      exact pyRange_step_one s stop

/-- Same as `windows_flatMap_cover` but for only the first `k` windows (the
Fortress loop breaks after 6): they cover `s, …, s + min (stop - s) (k*b) - 1`. -/
theorem windows_take_flatMap_cover (b : Nat) (hb : 0 < b) :
    ∀ d s stop k, stop - s ≤ d → s < stop →
      (((Paging.batchWindows
          (s :: (Paging.pyRange s stop b).map (fun x => min (x + b) stop)))).take k).flatMap
          (fun w => Paging.pyRange w.1 w.2 1) =
        List.range' s (min (stop - s) (k * b)) := by
  intro d
  induction d with
  | zero => intro s stop k hd hlt; omega
  | succ d ih =>
    intro s stop k hd hlt
    match k with
    | 0 => simp
    | k + 1 =>
      rw [pyRange_cons hb hlt]
      rcases Nat.lt_or_ge (s + b) stop with h2 | h2
      · have hmin : min (s + b) stop = s + b := by omega
        simp only [List.map_cons, hmin]
        rw [batchWindows_cons₂, List.take_succ_cons, List.flatMap_cons]
        rw [ih (s + b) stop k (by omega) h2]
        rw [pyRange_step_one]
        have hsb : s + b - s = b := by omega
        rw [hsb]
        have happ := List.range'_append_1 s b (min (stop - (s + b)) (k * b))
        rw [happ]
        congr 1
        have hkb : (k + 1) * b = k * b + b := by ring
        omega
      · have hmin : min (s + b) stop = stop := by omega
        have hnil : Paging.pyRange (s + b) stop b = [] := pyRange_nil h2
        simp only [hnil, List.map_cons, List.map_nil, hmin]
        rw [batchWindows_cons₂, batchWindows_single]
        rw [List.take_succ_cons, List.take_nil, List.flatMap_cons, List.flatMap_nil,
          List.append_nil]
        rw [pyRange_step_one]
        congr 1
        have hkb : (k + 1) * b = k * b + b := by ring
        omega

/-- Every batch window built from the boundary list spans at most `b` pages. -/
theorem windows_size_le (b : Nat) (hb : 0 < b) :
    ∀ d s stop, stop - s ≤ d → s < stop →
      ∀ w ∈ Paging.batchWindows
          (s :: (Paging.pyRange s stop b).map (fun x => min (x + b) stop)),
        w.2 - w.1 ≤ b := by
  intro d
  induction d with
  | zero => intro s stop hd hlt; omega
  | succ d ih =>
    intro s stop hd hlt w hw
    rw [pyRange_cons hb hlt] at hw
    rcases Nat.lt_or_ge (s + b) stop with h2 | h2
    · have hmin : min (s + b) stop = s + b := by omega
      simp only [List.map_cons, hmin] at hw
      rw [batchWindows_cons₂] at hw
      rcases List.mem_cons.mp hw with h | h
      · subst h; dsimp only; omega
      · exact ih (s + b) stop (by omega) h2 w h
    · have hmin : min (s + b) stop = stop := by omega
      have hnil : Paging.pyRange (s + b) stop b = [] := pyRange_nil h2
      simp only [hnil, List.map_cons, List.map_nil, hmin] at hw
      rw [batchWindows_cons₂, batchWindows_single] at hw
      rcases List.mem_cons.mp hw with h | h
      · subst h; dsimp only; omega
      · simp at h

theorem requestBatches_le_one {n b : Nat} (h : n ≤ 1) : Paging.requestBatches n b = [] := by
  unfold Paging.requestBatches Paging.requestBatchesBase
  rw [pyRange_nil (by omega), if_neg (by omega)]
  simp

theorem requestBatches_of_lt {n b : Nat} (h : 1 < n) :
    Paging.requestBatches n b
      = 2 :: (Paging.pyRange 2 (n + 1) b).map (fun x => min (x + b) (n + 1)) := by
  unfold Paging.requestBatches Paging.requestBatchesBase
  rw [if_pos h]

/-- The Formstack loop with a declared page count of `numPages` requests the
continuation pages `2, 3, …, numPages`, each exactly once and in order. -/
theorem formstackContinuationPages_eq (numPages batchSize : Nat) (hb : 0 < batchSize) :
    Paging.formstackContinuationPages numPages batchSize = List.range' 2 (numPages - 1) := by
  unfold Paging.formstackContinuationPages
  rcases Nat.lt_or_ge 1 numPages with h2 | h2
  · rw [requestBatches_of_lt h2,
      windows_flatMap_cover batchSize hb (numPages - 1) 2 (numPages + 1) (by omega) (by omega)]
    congr 1
  · rw [requestBatches_le_one (by omega)]
    have h01 : numPages - 1 = 0 := by omega
    rw [h01]
    rfl

/-- The Fortress loop caps the continuation at six windows: the requested
continuation pages are `2, …, 1 + min (numPages - 1) (6 * batchSize)`. -/
theorem fortressContinuationPages_eq (numPages batchSize : Nat) (hb : 0 < batchSize) :
    Paging.fortressContinuationPages numPages batchSize
      = List.range' 2 (min (numPages - 1) (6 * batchSize)) := by
  unfold Paging.fortressContinuationPages
  rcases Nat.lt_or_ge 1 numPages with h2 | h2
  · rw [requestBatches_of_lt h2,
      windows_take_flatMap_cover batchSize hb (numPages - 1) 2 (numPages + 1) 6 (by omega)
        (by omega)]
    congr 1
  · rw [requestBatches_le_one (by omega)]
    have h01 : min (numPages - 1) (6 * batchSize) = 0 := by omega
    rw [h01]
    rfl

/-- Every batch window produced by the `batches` computation spans at most
`batchSize` pages. -/
theorem requestBatches_window_le (numPages batchSize : Nat) (hb : 0 < batchSize) :
    ∀ w ∈ Paging.batchWindows (Paging.requestBatches numPages batchSize),
      w.2 - w.1 ≤ batchSize := by
  rcases Nat.lt_or_ge 1 numPages with h2 | h2
  · rw [requestBatches_of_lt h2]
    exact windows_size_le batchSize hb (numPages - 1) 2 (numPages + 1) (by omega) (by omega)
  · rw [requestBatches_le_one (by omega)]
    intro w hw
    simp [Paging.batchWindows] at hw

/-- The Fortress batch loop starting at `i` (with `1 ≤ i ≤ 6`) processes the
first `7 - i` remaining windows before the `if i > 5: break` fires. -/
theorem requestLoopGo_fst (ws : List (Nat × Nat)) :
    ∀ i pages logs, 1 ≤ i → i ≤ 6 →
      (Fortress.requestLoopGo ws i pages logs).1
        = pages ++ (ws.take (7 - i)).flatMap (fun w => Paging.pyRange w.1 w.2 1) := by
  induction ws with
  | nil =>
    intro i pages logs h1 h6
    simp [Fortress.requestLoopGo]
  | cons w rest ih =>
    intro i pages logs h1 h6
    simp only [Fortress.requestLoopGo]
    rcases Nat.lt_or_ge 5 i with hgt | hle
    · rw [if_pos hgt]
      have h7 : 7 - i = 1 := by omega
      rw [h7]
      simp
    · rw [if_neg (by omega)]
      rw [ih (i + 1) _ _ (by omega) (by omega)]
      have h7 : 7 - i = (7 - (i + 1)) + 1 := by omega
      rw [h7, List.take_succ_cons, List.flatMap_cons, List.append_assoc]

/-- Against a server answering 503 forever, every iteration of the
`get_menus` loop issues one more request and never reaches the exit
condition. -/
theorem getMenusLoop_always503 (fuel : Nat) :
    ∀ k, Cheq.getMenusLoop Cheq.menus503 fuel k false = ⟨k + fuel, false⟩ := by
  induction fuel with
  | zero => intro k; simp [Cheq.getMenusLoop]
  | succ n ih =>
    intro k
    rw [show Cheq.getMenusLoop Cheq.menus503 (n + 1) k false
        = Cheq.getMenusLoop Cheq.menus503 n (k + 1) false from by
      simp [Cheq.getMenusLoop, Cheq.menus503]]
    rw [ih (k + 1)]
    have : k + 1 + n = k + (n + 1) := by omega
    rw [this]

/-- If the response to request `j` is a non-503 with an empty `results` list,
the `get_sales` loop never issues a request with index beyond `j + 1`:
the zero-record page is terminal. -/
theorem getSalesLoop_stops_at_empty (server : Nat → Cheq.SalesResp) (j : Nat)
    (hs : (server j).status ≠ 503) (he : (server j).results = []) :
    ∀ fuel k page cc ended acc, k ≤ j →
      (Cheq.getSalesLoop server fuel k page cc ended acc).requests ≤ j + 1 := by
  intro fuel
  induction fuel with
  | zero =>
    intro k page cc ended acc hk
    simp only [Cheq.getSalesLoop]
    omega
  | succ fuel ih =>
    intro k page cc ended acc hk
    by_cases hend : ended = true
    · simp [Cheq.getSalesLoop, hend]
      omega
    · by_cases h503 : (server k).status = 503
      · by_cases hcc : 5 < cc + 1
        · simp [Cheq.getSalesLoop, hend, h503, hcc]
          omega
        · have hkj : k ≠ j := by
            intro hkeq
            exact hs (hkeq ▸ h503)
          have hrec := ih (k + 1) page (cc + 1) ended acc (by omega)
          simpa [Cheq.getSalesLoop, hend, h503, hcc] using hrec
      · by_cases hres : (server k).results = []
        · simp [Cheq.getSalesLoop, hend, h503, hres]
          omega
        · have hkj : k ≠ j := by
            intro hkeq
            subst hkeq
            exact hres he
          have hrec := ih (k + 1) (page + 1) cc (server k).isEnd (acc ++ [page]) (by omega)
          simpa [Cheq.getSalesLoop, hend, h503, hres] using hrec

/-- Folding the `post_members` batch step over any list of batch indices
attempts every index, returns exactly the successful outcomes, and logs
exactly the failures (with their status code and body). -/
theorem postMembersStep_foldl_spec (server : Nat → Gameday.Resp) (l : List Nat) :
    ∀ run : Gameday.Run,
      (l.foldl (Gameday.postMembersStep server) run).attempted = run.attempted ++ l
      ∧ (l.foldl (Gameday.postMembersStep server) run).outcomes
          = run.outcomes ++ l.filterMap (fun i =>
              if (server i).status < 400
              then some ⟨i, (server i).status, (server i).body⟩ else none)
      ∧ (l.foldl (Gameday.postMembersStep server) run).logs
          = run.logs ++ l.filterMap (fun i =>
              if (server i).status < 400 then none
              else some (Gameday.FailLog.failedIteration i (server i).status (server i).body)) := by
  induction l with
  | nil => intro run; simp
  | cons i rest ih =>
    intro run
    rw [List.foldl_cons]
    obtain ⟨ha, ho, hl⟩ := ih (Gameday.postMembersStep server run i)
    by_cases h : (server i).status < 400
    · refine ⟨?_, ?_, ?_⟩
      · rw [ha]; simp [Gameday.postMembersStep, h]
      · rw [ho]; simp [Gameday.postMembersStep, h, List.filterMap_cons]
      · rw [hl]; simp [Gameday.postMembersStep, h, List.filterMap_cons]
    · refine ⟨?_, ?_, ?_⟩
      · rw [ha]; simp [Gameday.postMembersStep, h]
      · rw [ho]; simp [Gameday.postMembersStep, h, List.filterMap_cons]
      · rw [hl]; simp [Gameday.postMembersStep, h, List.filterMap_cons]

/-- Function `_get_all_pages` returns exactly the concatenated raw body chunks of the
visited pages — built from iterating the raw response objects, never from
`response.json()`. -/
theorem getAllPagesAux_eq_visited {α β : Type} (server : String → Greenhouse.Page α β) :
    ∀ fuel url,
      Greenhouse.getAllPagesAux server fuel url
        = (Greenhouse.visitedPages server fuel url).flatMap (fun u => (server u).chunks) := by
  intro fuel
  induction fuel with
  | zero => intro url; simp [Greenhouse.getAllPagesAux, Greenhouse.visitedPages]
  | succ n ih =>
    intro url
    rcases hnl : (server url).nextLink with _ | nxt
    · simp [Greenhouse.getAllPagesAux, Greenhouse.visitedPages, hnl]
    · simp [Greenhouse.getAllPagesAux, Greenhouse.visitedPages, hnl, ih]

/-- The record lists of the pages never influence `_get_all_pages`: two
servers agreeing on chunks and next-links (but with arbitrary, differently
typed records) produce identical outputs, so the JSON-parsed records of the
pages contribute nothing to the returned list. -/
theorem getAllPagesAux_records_irrelevant {α β γ : Type}
    (server : String → Greenhouse.Page α β) (server2 : String → Greenhouse.Page α γ)
    (hagree : ∀ u, (server u).chunks = (server2 u).chunks
      ∧ (server u).nextLink = (server2 u).nextLink) :
    ∀ fuel url,
      Greenhouse.getAllPagesAux server fuel url = Greenhouse.getAllPagesAux server2 fuel url := by
  intro fuel
  induction fuel with
  | zero => intro url; simp [Greenhouse.getAllPagesAux]
  | succ n ih =>
    intro url
    obtain ⟨hc, hn⟩ := hagree url
    rcases hnl : (server url).nextLink with _ | nxt
    · simp [Greenhouse.getAllPagesAux, hnl, hn ▸ hnl, hc]
    · simp [Greenhouse.getAllPagesAux, hnl, hn ▸ hnl, hc, ih]

/-- C1 (amended): for a declared page count `numPages ≥ 1` and batch size
`batchSize > 0`, the Formstack driver requests exactly the continuation pages
`2 … numPages`, none repeated, none skipped, in consecutive batch windows each
spanning at most `batchSize` pages; the Fortress driver does the same except
that its `if i > 5: break` circuit breaker caps the continuation at six
windows, so it requests exactly pages `2 … 1 + min (numPages - 1) (6 * batchSize)`.
In particular `numPages = 1` yields no continuation request, and `numPages = 7`
with `batchSize = 5` yields pages 2–6 then page 7. -/
theorem c1_count_based_pagination (numPages batchSize : Nat) (hb : 0 < batchSize) :
    Paging.formstackContinuationPages numPages batchSize = List.range' 2 (numPages - 1)
    ∧ Paging.fortressContinuationPages numPages batchSize
        = List.range' 2 (min (numPages - 1) (6 * batchSize))
    ∧ ∀ w ∈ Paging.batchWindows (Paging.requestBatches numPages batchSize),
        w.2 - w.1 ≤ batchSize :=
  ⟨formstackContinuationPages_eq numPages batchSize hb,
   fortressContinuationPages_eq numPages batchSize hb,
   requestBatches_window_le numPages batchSize hb⟩

/-- C1 witness: Scenario B — `numPages = 7`, `batchSize = 5` gives pages
`2 … 7` (as one window of five pages and one of a single page). -/
theorem c1_witness :
    0 < 5
    ∧ (Paging.formstackContinuationPages 7 5 = List.range' 2 (7 - 1)
       ∧ Paging.fortressContinuationPages 7 5 = List.range' 2 (min (7 - 1) (6 * 5))
       ∧ ∀ w ∈ Paging.batchWindows (Paging.requestBatches 7 5), w.2 - w.1 ≤ 5) :=
  ⟨by decide, c1_count_based_pagination 7 5 (by decide)⟩

/-- C1 counterexample: with a declared page count of 32 and the default
Fortress batch size 5, the Fortress driver requests only pages 2–31; page 32
is silently skipped by the `if i > 5: break`, so the driver does not request
"exactly the pages 2 through N". -/
theorem c1_counterexample :
    (32 : Nat) ∉ Paging.fortressContinuationPages 32 5
    ∧ Paging.fortressContinuationPages 32 5 = List.range' 2 30 := by decide

/-- C2: against a server for which cursor `A` returns a page whose
`next_page` is `B`, the Blinkfire cursor loop sends cursor `A` on every
continuation request (five requests shown for fuel 5) and never sends `B`:
the cursor returned by the immediately preceding response is not the one
used.  Moreover, a Bump count-based fetch session requests page 1 twice
(once from the `_get_total_pages` probe, once from the chunked fetch). -/
theorem c2_cursor_reuse :
    Blinkfire.getCursorResults c2server ⟨some "A"⟩ 5 = ["A", "A", "A", "A", "A"]
    ∧ "B" ∉ Blinkfire.getCursorResults c2server ⟨some "A"⟩ 5
    ∧ (Bump.sessionPages 12 5).count 1 = 2 := by decide

/-- C3: 31 sequential calls through the Blinkfire rate limiter — 16 entering
at time 0 (call 16 is suspended until t = 900) and 15 entering as soon as
call 16's request is issued — produce 16 actual request issue times inside
the single trailing window `(0, 900]`, exceeding the ceiling of 15. -/
theorem c3_sliding_window_violation :
    ((Blinkfire.runCalls 31).2.filter
        (fun t => decide (0 < t ∧ t ≤ Blinkfire.timeWindow))).length = 16
    ∧ Blinkfire.rateLimit < 16 := by decide

/-- C4: when 16 calls enter the Blinkfire rate limiter at time 0, call 16 is
suspended and actually issued at time 900, yet the timestamp recorded for it
is 0 — the pre-suspension check time, not the issue time. -/
theorem c4_stale_timestamp_recorded :
    (Blinkfire.runCalls 16).2.getLastD 0 = 900
    ∧ (Blinkfire.runCalls 16).1.getLastD 0 = 0
    ∧ (Blinkfire.runCalls 16).1.getLastD 0 ≠ (Blinkfire.runCalls 16).2.getLastD 0 := by decide

/-- C5 (amended): on the response sequence 503, 503, 503, 200 the Fortress
page fetcher retries the same page three times with doubling backoff sleeps
2, 4, 8 and returns the payload of the fourth attempt; the Bump page fetcher,
however, sleeps a constant 60 seconds between attempts and makes at most
three attempts, so it raises instead of ever reaching the fourth attempt. -/
theorem c5_retry_backoff (server : Nat → Nat)
    (h0 : server 0 = 503) (h1 : server 1 = 503) (h2 : server 2 = 503) (h3 : server 3 = 200) :
    Fortress.getAsyncRequest server = ([2, 4, 8], FetchOutcome.payload 3)
    ∧ Bump.getAsyncRequest server = ([60, 60, 60], FetchOutcome.maxRetriesExceeded) := by
  constructor
  · simp [Fortress.getAsyncRequest, Fortress.getAsyncRequestAux, h0, h1, h2, h3]
  · simp [Bump.getAsyncRequest, Bump.getAsyncRequestAux, h0, h1, h2]

/-- C5 witness: the concrete Scenario C server. -/
theorem c5_witness :
    (c5server 0 = 503 ∧ c5server 1 = 503 ∧ c5server 2 = 503 ∧ c5server 3 = 200)
    ∧ (Fortress.getAsyncRequest c5server = ([2, 4, 8], FetchOutcome.payload 3)
       ∧ Bump.getAsyncRequest c5server = ([60, 60, 60], FetchOutcome.maxRetriesExceeded)) :=
  ⟨⟨rfl, rfl, rfl, rfl⟩, c5_retry_backoff c5server rfl rfl rfl rfl⟩

/-- C5 counterexample: on 503, 503, 503, 200 the Bump fetcher does not return
a successful payload on a fourth attempt — it stops after three attempts with
the re-raised exception, having slept a constant (not doubling) 60 seconds
between attempts. -/
theorem c5_counterexample :
    Bump.getAsyncRequest c5server = ([60, 60, 60], FetchOutcome.maxRetriesExceeded)
    ∧ (Bump.getAsyncRequest c5server).2 ≠ FetchOutcome.payload 3 := by decide

/-- C6 (amended): the Fortress page fetcher bounds retries at five attempts —
under persistent 5xx it terminates with the `Max retries exceeded` hard
failure after sleeps 2, 4, 8, 16, 32 — but `FLA_Cheq.get_menus` retries 503
responses with no bound at all: against an always-503 server, `fuel`
iterations issue `fuel` requests and the loop exit condition is never
reached, whatever `fuel` is. -/
theorem c6_retry_budget (server : Nat → Nat) (h : ∀ i, i < 5 → 400 ≤ server i) :
    Fortress.getAsyncRequest server = ([2, 4, 8, 16, 32], FetchOutcome.maxRetriesExceeded)
    ∧ ∀ fuel, (Cheq.getMenus Cheq.menus503 fuel).requests = fuel
        ∧ (Cheq.getMenus Cheq.menus503 fuel).done = false := by
  constructor
  · have h0 := h 0 (by omega)
    have h1 := h 1 (by omega)
    have h2 := h 2 (by omega)
    have h3 := h 3 (by omega)
    have h4 := h 4 (by omega)
    simp [Fortress.getAsyncRequest, Fortress.getAsyncRequestAux, h0, h1, h2, h3, h4]
  · intro fuel
    have hloop := getMenusLoop_always503 fuel 0
    rw [Cheq.getMenus, hloop]
    simp

/-- C6 witness: the always-503 server. -/
theorem c6_witness :
    (∀ i, i < 5 → 400 ≤ alwaysFiveOhThree i)
    ∧ (Fortress.getAsyncRequest alwaysFiveOhThree
          = ([2, 4, 8, 16, 32], FetchOutcome.maxRetriesExceeded)
       ∧ ∀ fuel, (Cheq.getMenus Cheq.menus503 fuel).requests = fuel
           ∧ (Cheq.getMenus Cheq.menus503 fuel).done = false) :=
  ⟨fun _ _ => (by decide : (400 : Nat) ≤ 503),
   c6_retry_budget alwaysFiveOhThree (fun _ _ => (by decide : (400 : Nat) ≤ 503))⟩

/-- C6 counterexample: the `get_menus` fetch loop does not terminate when the
server returns 503 on every attempt — no finite number of iterations reaches
its exit condition — and after e.g. 50 iterations it has issued 50 requests
(beyond any fixed 3–5 attempt budget) without raising. -/
theorem c6_counterexample :
    ¬ Cheq.getMenusTerminates Cheq.menus503
    ∧ (Cheq.getMenus Cheq.menus503 50).requests = 50 := by
  constructor
  · rintro ⟨fuel, hf⟩
    rw [Cheq.getMenus, getMenusLoop_always503 fuel 0] at hf
    simp at hf
  · rw [Cheq.getMenus, getMenusLoop_always503 50 0]

/-- Once the SeatGeek 5-minute (300-second) wall-clock ceiling is exceeded at
the check following request `k`, the `while _has_more` loop breaks at that
iteration boundary: request `k` is the last one issued — however much fuel
remains and whatever `has_more` says — and the records accumulated so far
(including request `k`'s) are what comes out of the loop. -/
theorem requestLoopGo_ceiling (sgServer : Nat → SeatGeek.PageResp)
    (elapsedAfter : Nat → Nat) (fuel k : Nat) (acc : List Nat)
    (hceil : 300 < elapsedAfter k) :
    SeatGeek.requestLoopGo sgServer elapsedAfter (fuel + 1) k true acc
      = (k + 1, acc ++ (sgServer k).data) := by
  simp [SeatGeek.requestLoopGo, hceil]

/-- C7 (amended): hitting a circuit-breaker ceiling stops further page
requests at a batch/iteration boundary and the records accumulated so far are
returned to the caller as a partial result, not raised as an error.  For
Fortress, the `if i > 5: break` iteration cap: the driver requests the
initial page plus `min (numPages - 1) (6 * batchSize)` continuation pages and
returns exactly those responses as the resulting dataframe.  For SeatGeek,
the 5-minute wall-clock ceiling (`timedelta(minutes=5)`, checked after each
iteration): once it is exceeded at the first post-iteration check, the run
stops after exactly two requests and returns their combined records as a
normal result (`returnedNone = false`), issuing no third request even though
every page still says `has_more`.  Neither break emits a diagnostic notice of
the cutoff (see the counterexample). -/
theorem c7_circuit_breaker (numPages batchSize : Nat) (hb : 0 < batchSize)
    (sgServer : Nat → SeatGeek.PageResp) (elapsedAfter : Nat → Nat) (sgFuel : Nat)
    (hd : (sgServer 0).data ≠ []) (hm : (sgServer 0).hasMore = true)
    (hceil : 300 < elapsedAfter 1) :
    (Fortress.requestLoop numPages batchSize).requestedPages
        = 1 :: List.range' 2 (min (numPages - 1) (6 * batchSize))
    ∧ (Fortress.requestLoop numPages batchSize).returnedPages
        = (Fortress.requestLoop numPages batchSize).requestedPages
    ∧ SeatGeek.requestLoop sgServer elapsedAfter (sgFuel + 1)
        = ⟨2, (sgServer 0).data ++ (sgServer 1).data, false⟩ := by
  have hgo : (Fortress.requestLoopGo
      (Paging.batchWindows (Paging.requestBatches numPages batchSize)) 1 []
      [Fortress.LoopLog.numPages numPages]).1
      = Paging.fortressContinuationPages numPages batchSize := by
    rw [requestLoopGo_fst _ 1 _ _ (by omega) (by omega)]
    simp [Paging.fortressContinuationPages]
  refine ⟨?_, rfl, ?_⟩
  · show 1 :: (Fortress.requestLoopGo _ 1 [] _).1 = _
    rw [hgo, fortressContinuationPages_eq numPages batchSize hb]
  · simp only [SeatGeek.requestLoop]
    rw [if_neg hd, hm,
      requestLoopGo_ceiling sgServer elapsedAfter sgFuel 1 ((sgServer 0).data) hceil]

/-- C7 witness: a 40-page Fortress fetch with batch size 5, and a SeatGeek run
against an endlessly paginating server whose wall clock already shows 301
seconds at the first post-iteration check. -/
theorem c7_witness :
    (0 < 5 ∧ (c7sgServer 0).data ≠ [] ∧ (c7sgServer 0).hasMore = true
      ∧ 300 < c7elapsed 1)
    ∧ ((Fortress.requestLoop 40 5).requestedPages
          = 1 :: List.range' 2 (min (40 - 1) (6 * 5))
       ∧ (Fortress.requestLoop 40 5).returnedPages
          = (Fortress.requestLoop 40 5).requestedPages
       ∧ SeatGeek.requestLoop c7sgServer c7elapsed (9 + 1)
          = ⟨2, (c7sgServer 0).data ++ (c7sgServer 1).data, false⟩) :=
  ⟨⟨by decide, by decide, by decide, by decide⟩,
   c7_circuit_breaker 40 5 (by decide) c7sgServer c7elapsed 9
     (by decide) (by decide) (by decide)⟩

/-- C7 counterexample: a 40-page Fortress fetch is cut short at page 31 and
the accumulated 31 responses are returned (not an error), yet the complete
trace of `_request_loop`'s own prints consists only of the routine
page-count, window-bound and response-count entries — nothing announces the
cutoff (the per-request prints of `_get_async_request`, outside this trace,
only echo each page's banner, headers and payload and do not mention it
either).  Likewise the SeatGeek run truncated by the 5-minute ceiling after
two of its endless pages returns the partial records `[1, 2]` as a normal
result, with no diagnostic — contrary to the claim's "with a diagnostic
notice". -/
theorem c7_counterexample :
    (Fortress.requestLoop 40 5).requestedPages = 1 :: List.range' 2 30
    ∧ (40 : Nat) ∉ (Fortress.requestLoop 40 5).requestedPages
    ∧ (Fortress.requestLoop 40 5).returnedPages = (Fortress.requestLoop 40 5).requestedPages
    ∧ (Fortress.requestLoop 40 5).logs =
        [Fortress.LoopLog.numPages 40,
         Fortress.LoopLog.startPage 2, Fortress.LoopLog.endPage 7,
         Fortress.LoopLog.startPage 7, Fortress.LoopLog.endPage 12,
         Fortress.LoopLog.startPage 12, Fortress.LoopLog.endPage 17,
         Fortress.LoopLog.startPage 17, Fortress.LoopLog.endPage 22,
         Fortress.LoopLog.startPage 22, Fortress.LoopLog.endPage 27,
         Fortress.LoopLog.startPage 27, Fortress.LoopLog.endPage 32,
         Fortress.LoopLog.responseCount 31]
    ∧ SeatGeek.requestLoop c7sgServer c7elapsed 10 = ⟨2, [1, 2], false⟩
    ∧ (c7sgServer 2).hasMore = true := by decide

/-- C8 (amended): a failed batch does not abort a Gameday batched write — all
`n` batches are attempted regardless of failures — and the list returned to
the caller contains exactly the outcomes (status code and body) of the
*successful* batches, while each failed batch's status code and body are
recorded only in the printed diagnostics, not in the returned list. -/
theorem c8_batched_write_outcomes (server : Nat → Gameday.Resp) (n : Nat) :
    (Gameday.postMembers server n).attempted = List.range n
    ∧ (Gameday.postMembers server n).outcomes
        = (List.range n).filterMap (fun i =>
            if (server i).status < 400
            then some ⟨i, (server i).status, (server i).body⟩ else none)
    ∧ (Gameday.postMembers server n).logs
        = (List.range n).filterMap (fun i =>
            if (server i).status < 400 then none
            else some (Gameday.FailLog.failedIteration i (server i).status (server i).body)) := by
  have h := postMembersStep_foldl_spec server (List.range n) ⟨[], [], []⟩
  simpa [Gameday.postMembers] using h

/-- C8 counterexample: Scenario E — three batches where batch 2 (index 1)
fails with HTTP 400.  Batches 1 and 3 still run (all three are attempted),
but the returned outcome list contains only batches 0 and 2: batch 1's
failure, status code and response body appear only in the printed
diagnostics, not in the value returned to the caller. -/
theorem c8_counterexample :
    (Gameday.postMembers c8server 3).attempted = [0, 1, 2]
    ∧ (Gameday.postMembers c8server 3).outcomes.map (fun o => o.iteration) = [0, 2]
    ∧ (Gameday.postMembers c8server 3).outcomes.filter
        (fun o => decide (o.iteration = 1)) = []
    ∧ (Gameday.postMembers c8server 3).logs
        = [Gameday.FailLog.failedIteration 1 400 "batch 2 rejected"] := by decide

/-- C9 (amended): in `FLA_Cheq.get_sales` every zero-record (non-503) page is
terminal — if the response to request `j` has empty `results`, no request
beyond index `j + 1` is ever issued, whatever the fuel.  In
`FLA_SeatGeek._request_loop` only a zero-record *initial* response is
terminal (the method returns `None` after that single request); continuation
pages terminate on the `has_more` flag alone, not on emptiness (see the
counterexample). -/
theorem c9_zero_record_termination (server : Nat → Cheq.SalesResp) (fuel j : Nat)
    (hs : (server j).status ≠ 503) (he : (server j).results = [])
    (sgServer : Nat → SeatGeek.PageResp) (elapsedAfter : Nat → Nat) (sgFuel : Nat)
    (h0 : (sgServer 0).data = []) :
    (Cheq.getSales server fuel).requests ≤ j + 1
    ∧ SeatGeek.requestLoop sgServer elapsedAfter sgFuel = ⟨1, [], true⟩ := by
  constructor
  · exact getSalesLoop_stops_at_empty server j hs he fuel 0 1 0 false [] (by omega)
  · simp [SeatGeek.requestLoop, h0]

/-- C9 witness: a Cheq sales server whose third response is empty, and a
SeatGeek server whose initial response is empty. -/
theorem c9_witness :
    ((c9salesServer 2).status ≠ 503 ∧ (c9salesServer 2).results = []
      ∧ (c9sgEmptyServer 0).data = [])
    ∧ ((Cheq.getSales c9salesServer 10).requests ≤ 2 + 1
       ∧ SeatGeek.requestLoop c9sgEmptyServer (fun _ => 0) 5 = ⟨1, [], true⟩) :=
  ⟨⟨by decide, by decide, by decide⟩,
   c9_zero_record_termination c9salesServer 10 2 (by decide) (by decide)
     c9sgEmptyServer (fun _ => 0) 5 (by decide)⟩

/-- C9 counterexample: a SeatGeek continuation page (request index 1) with
zero records but `has_more = true` does not stop the loop — a third request
(index 2) is still issued after the zero-record page is consumed. -/
theorem c9_counterexample :
    (c9sgServer 1).data = []
    ∧ (c9sgServer 1).hasMore = true
    ∧ (SeatGeek.requestLoop c9sgServer (fun _ => 0) 10).requests = 3 := by decide

/-- C10: `FLA_Greenhouse._get_all_pages` (and hence `get_all_jobs` etc.)
returns exactly the concatenation, over the visited pages, of the elements
obtained by iterating each raw HTTP response object (`all_data.extend(response)`);
the response body parser is never invoked: replacing every page's parsed
record list by anything else — even of a different type — leaves the result
unchanged, so no element of the returned list is a parsed record of any page
payload. -/
theorem c10_raw_response_accumulation {α β γ : Type}
    (server : String → Greenhouse.Page α β) (server2 : String → Greenhouse.Page α γ)
    (hagree : ∀ u, (server u).chunks = (server2 u).chunks
      ∧ (server u).nextLink = (server2 u).nextLink)
    (fuel : Nat) (url : String) :
    Greenhouse.getAllPagesAux server fuel url
        = (Greenhouse.visitedPages server fuel url).flatMap (fun u => (server u).chunks)
    ∧ Greenhouse.getAllPagesAux server fuel url = Greenhouse.getAllPagesAux server2 fuel url
    ∧ Greenhouse.getAllJobs server fuel
        = (Greenhouse.visitedPages server fuel "jobs").flatMap (fun u => (server u).chunks) :=
  ⟨getAllPagesAux_eq_visited server fuel url,
   getAllPagesAux_records_irrelevant server server2 hagree fuel url,
   getAllPagesAux_eq_visited server fuel "jobs"⟩

/-- C10 witness: a concrete two-page server and its record-stripped twin. -/
theorem c10_witness :
    (∀ u, (c10server u).chunks = (c10server2 u).chunks
      ∧ (c10server u).nextLink = (c10server2 u).nextLink)
    ∧ (Greenhouse.getAllPagesAux c10server 5 "jobs"
          = (Greenhouse.visitedPages c10server 5 "jobs").flatMap (fun u => (c10server u).chunks)
       ∧ Greenhouse.getAllPagesAux c10server 5 "jobs"
          = Greenhouse.getAllPagesAux c10server2 5 "jobs"
       ∧ Greenhouse.getAllJobs c10server 5
          = (Greenhouse.visitedPages c10server 5 "jobs").flatMap
              (fun u => (c10server u).chunks)) := by
  have hag : ∀ u, (c10server u).chunks = (c10server2 u).chunks
      ∧ (c10server u).nextLink = (c10server2 u).nextLink := by
    intro u
    by_cases h : u = "jobs" <;> simp [c10server, c10server2, h]
  exact ⟨hag, c10_raw_response_accumulation c10server c10server2 hag 5 "jobs"⟩
